import Mathlib

/-!
starry: construction of a `Map` (`include/starry/Map/Map.h`)

A shallow embedding of the three constructors of the class template `Map`.

* C++ `int` values are mathematical integers (`Int`); the one arithmetic
  expression of the constructor, `(lmax + 1) * (lmax + 1)`, is reduced to the
  32-bit two's-complement range with `wrap32`.
* A constructor call is a `Run`: the ordered list of steps it performs
  (member initialisers in declaration order, then the statements of the body)
  together with its result (a map, a thrown error, or an out-of-bounds write).
* The macro `STARRY_MAX_LMAX`, the constant `pi<Scalar>()` and the contents of
  freshly allocated storage are not fixed by `Map.h`; they are the fields of
  an environment `Env` over which every statement is quantified.
-/

namespace starry

/-! ## Scalars, machine integers, map kinds, errors -/

/-- The scalar type of the map (`S::Scalar`). The constructor only stores the
literal `1.0` and the quotient `pi / 180.`, so exact rationals are used. -/
abbrev Scalar := ℚ

/-- The value held by a 32-bit two's-complement `int` after computing the
mathematical integer `x`. -/
def wrap32 (x : Int) : Int := (x + 2147483648) % 4294967296 - 2147483648

/-- The map kinds the template parameter `S` ranges over
(`Default<T>`, `Spectral<T>`, `Temporal<T>`). -/
inductive Kind
  | Default
  | Spectral
  | Temporal
  deriving DecidableEq, Repr

/-- The constraint `IsDefault<U>` on the single-column constructor. -/
def IsDefault (S : Kind) : Prop := S = Kind.Default

/-- The constraint `IsSpectralOrTemporal<U>` on the multi-column constructor. -/
def IsSpectralOrTemporal (S : Kind) : Prop := S = Kind.Spectral ∨ S = Kind.Temporal

instance (S : Kind) : Decidable (IsDefault S) := by
  unfold IsDefault; infer_instance

instance (S : Kind) : Decidable (IsSpectralOrTemporal S) := by
  unfold IsSpectralOrTemporal; infer_instance

namespace errors

/-- The exception class `errors::ValueError`, carrying its message. -/
structure ValueError where
  msg : String
  deriving DecidableEq, Repr

end errors

/-- Modelled from the spec: what `Map.h` uses but does not define. The macro
`STARRY_MAX_LMAX` is the "fixed maximum supported degree" of the spec, which
gives no value for it; `pi<Scalar>()` and the contents of fresh storage are
likewise left open. -/
structure Env where
  /-- The macro `STARRY_MAX_LMAX`, the maximum supported degree. -/
  STARRY_MAX_LMAX : Int
  /-- The value of `pi<Scalar>()`. -/
  pi : Scalar
  /-- The (unspecified) content of entry `i` of freshly allocated storage. -/
  uninit : Nat → Scalar

/-! ## Member types -/

/-- `Vector<Scalar>`: a dynamically sized column of scalars. -/
abbrev Vector := List Scalar

/-- `Vector<Scalar> v(n)`: storage for `n` entries, contents unspecified.
What the vector library does with a negative `n` is not part of `Map.h`;
here it yields no entries. -/
def Vector.alloc (env : Env) (n : Int) : Vector :=
  (List.range n.toNat).map env.uninit

/-- `v(i) = x`: defined only when `i` is a valid index of `v`. -/
def Vector.write (v : Vector) (i : Nat) (x : Scalar) : Option Vector :=
  if i < v.length then some (v.set i x) else none

/-- `S::YType`, stored as a list of columns. -/
abbrev YType := List (List Scalar)

/-- `S::UType`, stored as a list of columns. -/
abbrev UType := List (List Scalar)

/-- `UnitVector<Scalar>`: three scalars. -/
abbrev UnitVector := Scalar × Scalar × Scalar

/-- Modelled from the spec: the class `Cache<S>` is not declared in `Map.h`.
The spec describes it as a memo of degree-dependent matrices, created lazily
and fully invalidated on reset; the object is represented by its constructor
arguments and a flag telling whether anything has been memoised. -/
structure Cache where
  lmax : Int
  ncoly : Int
  ncolu : Int
  nflx : Int
  populated : Bool
  deriving DecidableEq, Repr

namespace basis

/-- Modelled from the spec: the class `basis::Basis` is not declared in
`Map.h`. The spec describes the basis transform as a pure function of the
maximum degree without error conditions; the object is represented by the
degree it was constructed with. -/
structure Basis where
  lmax : Int
  deriving DecidableEq, Repr

end basis

namespace rotation

/-- Modelled from the spec: the class `rotation::Wigner` is not declared in
`Map.h`; the object is represented by the integer arguments it was
constructed with (it also keeps references to `y` and `axis`). -/
structure Wigner where
  lmax : Int
  ncoly : Int
  nflx : Int
  deriving DecidableEq, Repr

end rotation

namespace solver

/-- Modelled from the spec: the class `solver::Greens` is not declared in
`Map.h`; the object is represented by the degree it was constructed with. -/
structure Greens where
  lmax : Int
  deriving DecidableEq, Repr

end solver

namespace limbdark

/-- Modelled from the spec: the class `limbdark::GreensLimbDark` is not
declared in `Map.h`; the object is represented by the degree it was
constructed with. -/
structure GreensLimbDark where
  lmax : Int
  deriving DecidableEq, Repr

end limbdark

/-! ## The class `Map` -/

/-- The data members of `Map`, in declaration order. The members `u_deg`,
`y_deg` and `radian` have no initialiser: they are `none` until assigned. -/
structure Map where
  lmax : Int
  N : Int
  ncoly : Int
  ncolu : Int
  nflx : Int
  cache : Cache
  y : YType
  u : UType
  axis : UnitVector
  B : basis.Basis
  W : rotation.Wigner
  G : solver.Greens
  L : limbdark.GreensLimbDark
  taylor : Vector
  u_deg : Option Int
  y_deg : Option Int
  radian : Option Scalar
  deriving DecidableEq

/-- One step of a constructor call. -/
inductive Step
  | init_lmax (v : Int)
  | init_N (v : Int)
  | init_ncoly (v : Int)
  | init_ncolu (v : Int)
  | init_nflx (v : Int)
  | construct_cache (lmax ncoly ncolu nflx : Int)
  | construct_y
  | construct_u
  | construct_axis
  | construct_B (lmax : Int)
  | construct_W (lmax ncoly nflx : Int)
  | construct_G (lmax : Int)
  | construct_L (lmax : Int)
  | construct_taylor (n : Int)
  | check_degree (lmax : Int)
  | check_columns (ncoly ncolu : Int)
  | raise (e : errors.ValueError)
  | set_radian
  | write_taylor (i len : Nat)
  | call_reset
  deriving DecidableEq, Repr

/-- The degree a step hands to a sub-component (cache, basis transform,
rotation engine, the two solvers), if the step constructs one. -/
def Step.componentDegree : Step → Option Int
  | .construct_cache l _ _ _ => some l
  | .construct_B l => some l
  | .construct_W l _ _ => some l
  | .construct_G l => some l
  | .construct_L l => some l
  | _ => none

/-- The ways a constructor call can end other than by returning. -/
inductive Failure
  | thrown (e : errors.ValueError)
  | outOfBounds (i len : Nat)
  deriving DecidableEq, Repr

/-- A constructor call: the steps performed, in order, and the result. -/
structure Run where
  trace : List Step
  result : Except Failure Map

/-- The value the initialiser `N((lmax + 1) * (lmax + 1))` stores. -/
def Map.initN (lmax : Int) : Int :=
  wrap32 (wrap32 (lmax + 1) * wrap32 (lmax + 1))

/-- The object after the member initialiser list
`lmax(lmax), N(...), ncoly(ncoly), ncolu(ncolu), nflx(nflx), cache(...),
B(lmax), W(...), G(lmax), L(lmax), taylor(ncoly)`; `y`, `u` and `axis` are
default-constructed. -/
def Map.initState (env : Env) (lmax ncoly ncolu nflx : Int) : Map :=
  { lmax := lmax
    N := Map.initN lmax
    ncoly := ncoly
    ncolu := ncolu
    nflx := nflx
    cache := { lmax := lmax, ncoly := ncoly, ncolu := ncolu, nflx := nflx, populated := false }
    y := []
    u := []
    axis := (env.uninit 0, env.uninit 1, env.uninit 2)
    B := { lmax := lmax }
    W := { lmax := lmax, ncoly := ncoly, nflx := nflx }
    G := { lmax := lmax }
    L := { lmax := lmax }
    taylor := Vector.alloc env ncoly
    u_deg := none
    y_deg := none
    radian := none }

/-- The steps of the member initialiser list, in the order the members are
declared in the class (which is the order in which C++ initialises them). -/
def Map.initTrace (lmax ncoly ncolu nflx : Int) : List Step :=
  [ .init_lmax lmax,
    .init_N (Map.initN lmax),
    .init_ncoly ncoly,
    .init_ncolu ncolu,
    .init_nflx nflx,
    .construct_cache lmax ncoly ncolu nflx,
    .construct_y,
    .construct_u,
    .construct_axis,
    .construct_B lmax,
    .construct_W lmax ncoly nflx,
    .construct_G lmax,
    .construct_L lmax,
    .construct_taylor ncoly ]

/-- Modelled from the spec: `reset()` is defined in `public/oper.h`, which is
not among the available sources. Following the data model of the spec, it
returns the state the orchestrator owns to its default: the cache is fully
invalidated, `y` gets `ncoly` columns of `N` scalars, `u` gets `ncolu` columns
of `u_deg + 1 = 1` scalars, the axis is a unit vector. The `const` members
cannot change, and the Taylor coefficients are left alone ("Taylor
coefficient[0] == 1.0 at all times"). -/
def Map.reset (m : Map) : Map :=
  { m with
    cache := { m.cache with populated := false }
    y := List.replicate m.ncoly.toNat (List.replicate m.N.toNat 0)
    y_deg := some 0
    u := List.replicate m.ncolu.toNat (List.replicate 1 0)
    u_deg := some 0
    axis := (0, 1, 0) }

/-- Message of the error thrown by the degree check. -/
def degreeMessage : String := "Spherical harmonic degree out of range."

/-- Message of the error thrown by the column check. -/
def columnMessage : String := "The number of map columns must be positive."

/-- `Map(int lmax, int ncoly, int ncolu, int nflx)`, the protected
"constructor for all map types": the member initialiser list, then the body
(degree check, column check, `radian = pi / 180.`, `taylor(0) = 1.0`,
`reset()`). -/
def Map.Map_all (env : Env) (lmax ncoly ncolu nflx : Int) : Run :=
  let m := Map.initState env lmax ncoly ncolu nflx
  let t := Map.initTrace lmax ncoly ncolu nflx
  if lmax < 0 ∨ lmax > env.STARRY_MAX_LMAX then
    { trace := t ++ [.check_degree lmax, .raise ⟨degreeMessage⟩]
      result := .error (.thrown ⟨degreeMessage⟩) }
  else if ncoly < 1 ∨ ncolu < 1 then
    { trace := t ++ [.check_degree lmax, .check_columns ncoly ncolu, .raise ⟨columnMessage⟩]
      result := .error (.thrown ⟨columnMessage⟩) }
  else
    let m := { m with radian := some (env.pi / 180) }
    let body := [.check_degree lmax, .check_columns ncoly ncolu, .set_radian,
      .write_taylor 0 m.taylor.length]
    match Vector.write m.taylor 0 1 with
    | none =>
      { trace := t ++ body
        result := .error (.outOfBounds 0 m.taylor.length) }
    | some v =>
      { trace := t ++ body ++ [.call_reset]
        result := .ok (Map.reset { m with taylor := v }) }

/-- `Map(int lmax)`, the public "constructor for single-column maps",
available when `S` is the default kind: delegates to `Map(lmax, 1, 1, 1)`. -/
def Map.Map_single (env : Env) (S : Kind) (_hS : IsDefault S) (lmax : Int) : Run :=
  Map.Map_all env lmax 1 1 1

/-- `Map(int lmax, int ncol)`, the public "constructor for multi-column
maps", available when `S` is spectral or temporal: delegates to
`Map(lmax, ncol, is_same<U, Spectral> ? ncol : 1, is_same<U, Spectral> ? ncol : 1)`. -/
def Map.Map_multi (env : Env) (S : Kind) (_hS : IsSpectralOrTemporal S)
    (lmax ncol : Int) : Run :=
  Map.Map_all env lmax ncol
    (if S = Kind.Spectral then ncol else 1)
    (if S = Kind.Spectral then ncol else 1)

/-- A sample environment: maximum degree 50, a rational value for `pi`,
zero-filled fresh storage. -/
def sampleEnv : Env :=
  { STARRY_MAX_LMAX := 50
    pi := 355 / 113
    uninit := fun _ => 0 }

/-- The data-model invariant on the public fields of a map: the degree lies in
`[0, STARRY_MAX_LMAX]`, `ncoly` and `ncolu` are at least 1, and `N` is the
exact square `(lmax + 1)^2`. -/
def Map.Invariant (env : Env) (m : Map) : Prop :=
  0 ≤ m.lmax ∧ m.lmax ≤ env.STARRY_MAX_LMAX ∧ 1 ≤ m.ncoly ∧ 1 ≤ m.ncolu ∧
    m.N = (m.lmax + 1) ^ 2

/-! ## Auxiliary facts -/

theorem wrap32_of_range (x : Int) (h₁ : -2147483648 ≤ x) (h₂ : x < 2147483648) :
    wrap32 x = x := by
  unfold wrap32
  rw [Int.emod_eq_of_lt (by omega) (by omega)]
  omega

theorem initN_of_small (lmax : Int) (h₁ : 0 ≤ lmax) (h₂ : lmax ≤ 46339) :
    Map.initN lmax = (lmax + 1) * (lmax + 1) := by
  unfold Map.initN
  rw [wrap32_of_range (lmax + 1) (by omega) (by omega)]
  apply wrap32_of_range
  · nlinarith
  · nlinarith

/-- The bound 46339 is sharp: at degree 46340 the initialiser of `N` wraps. -/
theorem initN_wraps_at_46340 : Map.initN 46340 = -2147479015 := by
  decide

theorem Vector.length_alloc (env : Env) (n : Int) :
    (Vector.alloc env n).length = n.toNat := by
  simp [Vector.alloc]

theorem Vector.write_alloc_zero (env : Env) (n : Int) (x : Scalar) (h : 1 ≤ n) :
    Vector.write (Vector.alloc env n) 0 x = some ((Vector.alloc env n).set 0 x) := by
  have hlen : 0 < (Vector.alloc env n).length := by
    rw [Vector.length_alloc]; omega
  simp [Vector.write, hlen]

/-- The run of the four-argument constructor on a degree outside the range. -/
theorem Map_all_of_bad_degree (env : Env) (lmax ncoly ncolu nflx : Int)
    (h : lmax < 0 ∨ lmax > env.STARRY_MAX_LMAX) :
    Map.Map_all env lmax ncoly ncolu nflx =
      { trace := Map.initTrace lmax ncoly ncolu nflx ++
          [.check_degree lmax, .raise ⟨degreeMessage⟩]
        result := .error (.thrown ⟨degreeMessage⟩) } := by
  simp only [Map.Map_all, if_pos h]

/-- The run of the four-argument constructor on a degree in range and a
non-positive `ncoly` or `ncolu`. -/
theorem Map_all_of_bad_columns (env : Env) (lmax ncoly ncolu nflx : Int)
    (hd : ¬ (lmax < 0 ∨ lmax > env.STARRY_MAX_LMAX)) (hc : ncoly < 1 ∨ ncolu < 1) :
    Map.Map_all env lmax ncoly ncolu nflx =
      { trace := Map.initTrace lmax ncoly ncolu nflx ++
          [.check_degree lmax, .check_columns ncoly ncolu, .raise ⟨columnMessage⟩]
        result := .error (.thrown ⟨columnMessage⟩) } := by
  simp only [Map.Map_all, if_neg hd, if_pos hc]

/-- The run of the four-argument constructor when both checks pass. -/
theorem Map_all_of_valid (env : Env) (lmax ncoly ncolu nflx : Int)
    (hd : ¬ (lmax < 0 ∨ lmax > env.STARRY_MAX_LMAX)) (hc : ¬ (ncoly < 1 ∨ ncolu < 1)) :
    Map.Map_all env lmax ncoly ncolu nflx =
      { trace := Map.initTrace lmax ncoly ncolu nflx ++
          [.check_degree lmax, .check_columns ncoly ncolu, .set_radian,
            .write_taylor 0 ncoly.toNat, .call_reset]
        result := .ok (Map.reset
          { Map.initState env lmax ncoly ncolu nflx with
            radian := some (env.pi / 180)
            taylor := (Vector.alloc env ncoly).set 0 1 }) } := by
  have hn : 1 ≤ ncoly := by omega
  have hw := Vector.write_alloc_zero env ncoly 1 hn
  simp only [Map.Map_all, if_neg hd, if_neg hc]
  have ht : (Map.initState env lmax ncoly ncolu nflx).taylor = Vector.alloc env ncoly := rfl
  simp only [ht, hw, Vector.length_alloc]
  simp

theorem degreeMessage_ne_columnMessage : degreeMessage ≠ columnMessage := by
  decide

theorem thrown_msg_inj (a b : String)
    (h : (Except.error (Failure.thrown ⟨a⟩) : Except Failure Map) =
      Except.error (Failure.thrown ⟨b⟩)) : a = b := by
  injection h with h
  injection h with h
  injection h

/-- The result of the four-argument constructor, by cases on its two checks. -/
theorem Map_all_result_cases (env : Env) (lmax ncoly ncolu nflx : Int) :
    ((lmax < 0 ∨ lmax > env.STARRY_MAX_LMAX) ∧
        (Map.Map_all env lmax ncoly ncolu nflx).result = .error (.thrown ⟨degreeMessage⟩)) ∨
    ((0 ≤ lmax ∧ lmax ≤ env.STARRY_MAX_LMAX) ∧ (ncoly < 1 ∨ ncolu < 1) ∧
        (Map.Map_all env lmax ncoly ncolu nflx).result = .error (.thrown ⟨columnMessage⟩)) ∨
    ((0 ≤ lmax ∧ lmax ≤ env.STARRY_MAX_LMAX) ∧ (1 ≤ ncoly ∧ 1 ≤ ncolu) ∧
        (Map.Map_all env lmax ncoly ncolu nflx).result = .ok (Map.reset
          { Map.initState env lmax ncoly ncolu nflx with
            radian := some (env.pi / 180)
            taylor := (Vector.alloc env ncoly).set 0 1 })) := by
  by_cases hd : lmax < 0 ∨ lmax > env.STARRY_MAX_LMAX
  · exact Or.inl ⟨hd, by rw [Map_all_of_bad_degree env lmax ncoly ncolu nflx hd]⟩
  · have hr : 0 ≤ lmax ∧ lmax ≤ env.STARRY_MAX_LMAX := by omega
    by_cases hc : ncoly < 1 ∨ ncolu < 1
    · exact Or.inr (Or.inl ⟨hr, hc, by rw [Map_all_of_bad_columns env lmax ncoly ncolu nflx hd hc]⟩)
    · exact Or.inr (Or.inr ⟨hr, by omega, by rw [Map_all_of_valid env lmax ncoly ncolu nflx hd hc]⟩)

/-! ## The claims -/

/-- C1: for all integers `lmax`, `ncoly`, `ncolu`, `nflx`, the four-argument
constructor throws a `ValueError` if and only if `lmax < 0` or
`lmax > STARRY_MAX_LMAX` or `ncoly < 1` or `ncolu < 1`, and it returns a map
if and only if none of these holds. -/
theorem Map_all_throws_iff (env : Env) (lmax ncoly ncolu nflx : Int) :
    ((∃ e : errors.ValueError,
        (Map.Map_all env lmax ncoly ncolu nflx).result = .error (.thrown e)) ↔
      (lmax < 0 ∨ lmax > env.STARRY_MAX_LMAX ∨ ncoly < 1 ∨ ncolu < 1)) ∧
    ((∃ m : Map, (Map.Map_all env lmax ncoly ncolu nflx).result = .ok m) ↔
      ¬ (lmax < 0 ∨ lmax > env.STARRY_MAX_LMAX ∨ ncoly < 1 ∨ ncolu < 1)) := by
  rcases Map_all_result_cases env lmax ncoly ncolu nflx with ⟨hd, hr⟩ | ⟨hd, hc, hr⟩ | ⟨hd, hc, hr⟩
  · rw [hr]
    refine ⟨⟨fun _ => by omega, fun _ => ⟨_, rfl⟩⟩, ⟨?_, fun h => absurd (by omega) h⟩⟩
    rintro ⟨m, hm⟩
    cases hm
  · rw [hr]
    refine ⟨⟨fun _ => by omega, fun _ => ⟨_, rfl⟩⟩, ⟨?_, fun h => absurd (by omega) h⟩⟩
    rintro ⟨m, hm⟩
    cases hm
  · rw [hr]
    refine ⟨⟨?_, fun h => by omega⟩, ⟨fun _ => by omega, fun _ => ⟨_, rfl⟩⟩⟩
    rintro ⟨e, he⟩
    cases he

/-- C2 (as stated, refuted): with `lmax = 0`, `ncoly = 1`, `ncolu = 1` and the
non-positive flux column count `nflx = 0`, the four-argument constructor does
not fail: the claim that any non-positive column count among `ncoly`, `ncolu`,
`nflx` makes it fail is false at this input. -/
theorem nflx_unchecked_counterexample :
    ¬ (((1 : Int) < 1 ∨ (1 : Int) < 1 ∨ (0 : Int) < 1) →
        ∃ e : errors.ValueError,
          (Map.Map_all sampleEnv 0 1 1 0).result = .error (.thrown e)) := by
  intro h
  obtain ⟨e, he⟩ := h (Or.inr (Or.inr (by decide)))
  rw [Map_all_of_valid sampleEnv 0 1 1 0 (by decide) (by decide)] at he
  cases he

/-- C2 (amended): if `ncoly` or `ncolu` is non-positive, the four-argument
constructor throws a `ValueError`; `nflx` is not checked, so whenever the
degree is in range and `ncoly` and `ncolu` are positive the constructor
returns a map that stores `nflx` as given, positive or not. -/
theorem Map_all_throws_of_bad_columns (env : Env) (lmax ncoly ncolu nflx : Int) :
    ((ncoly < 1 ∨ ncolu < 1) →
      ∃ e : errors.ValueError,
        (Map.Map_all env lmax ncoly ncolu nflx).result = .error (.thrown e)) ∧
    ((0 ≤ lmax ∧ lmax ≤ env.STARRY_MAX_LMAX ∧ 1 ≤ ncoly ∧ 1 ≤ ncolu) →
      ∃ m : Map, (Map.Map_all env lmax ncoly ncolu nflx).result = .ok m ∧ m.nflx = nflx) := by
  rcases Map_all_result_cases env lmax ncoly ncolu nflx with ⟨hd, hr⟩ | ⟨hd, hc, hr⟩ | ⟨hd, hc, hr⟩
  · rw [hr]
    exact ⟨fun _ => ⟨_, rfl⟩, fun h => by omega⟩
  · rw [hr]
    exact ⟨fun _ => ⟨_, rfl⟩, fun h => by omega⟩
  · rw [hr]
    exact ⟨fun h => by omega, fun _ => ⟨_, rfl, rfl⟩⟩

/-- Witness for C2 (amended): `Map(3, 0, 2, 5)` throws, and `Map(3, 2, 2, 0)`
returns a map with `nflx = 0`. -/
theorem Map_all_throws_of_bad_columns_witness :
    (∃ e : errors.ValueError,
      (Map.Map_all sampleEnv 3 0 2 5).result = .error (.thrown e)) ∧
    (∃ m : Map, (Map.Map_all sampleEnv 3 2 2 0).result = .ok m ∧ m.nflx = 0) :=
  ⟨(Map_all_throws_of_bad_columns sampleEnv 3 0 2 5).1 (Or.inl (by decide)),
   (Map_all_throws_of_bad_columns sampleEnv 3 2 2 0).2
     ⟨by decide, by decide, by decide, by decide⟩⟩

/-- C8: the degree check takes precedence over the column check. The error
with message "Spherical harmonic degree out of range." is produced exactly
when `lmax < 0` or `lmax > STARRY_MAX_LMAX`, whatever `ncoly` and `ncolu` are,
and the error with message "The number of map columns must be positive." is
produced exactly when `0 <= lmax <= STARRY_MAX_LMAX` and (`ncoly < 1` or
`ncolu < 1`). -/
theorem degree_check_precedes_column_check (env : Env) (lmax ncoly ncolu nflx : Int) :
    ((Map.Map_all env lmax ncoly ncolu nflx).result =
        .error (.thrown ⟨"Spherical harmonic degree out of range."⟩) ↔
      (lmax < 0 ∨ lmax > env.STARRY_MAX_LMAX)) ∧
    ((Map.Map_all env lmax ncoly ncolu nflx).result =
        .error (.thrown ⟨"The number of map columns must be positive."⟩) ↔
      (0 ≤ lmax ∧ lmax ≤ env.STARRY_MAX_LMAX ∧ (ncoly < 1 ∨ ncolu < 1))) := by
  rcases Map_all_result_cases env lmax ncoly ncolu nflx with ⟨hd, hr⟩ | ⟨hd, hc, hr⟩ | ⟨hd, hc, hr⟩
  · rw [hr]
    refine ⟨⟨fun _ => hd, fun _ => rfl⟩, ⟨fun h => ?_, fun h => by omega⟩⟩
    exact absurd (thrown_msg_inj _ _ h) degreeMessage_ne_columnMessage
  · rw [hr]
    refine ⟨⟨fun h => ?_, fun h => by omega⟩, ⟨fun _ => ⟨hd.1, hd.2, hc⟩, fun _ => rfl⟩⟩
    exact absurd (thrown_msg_inj _ _ h).symm degreeMessage_ne_columnMessage
  · rw [hr]
    refine ⟨⟨fun h => ?_, fun h => by omega⟩, ⟨fun h => ?_, fun h => by omega⟩⟩
    · cases h
    · cases h

/-- C3: for every `lmax` with `0 <= lmax <= STARRY_MAX_LMAX`, the product
`(lmax + 1) * (lmax + 1)` of the initialiser list does not wrap in 32-bit
arithmetic, and every map constructed with that degree stores
`N = (lmax + 1)^2` exactly. The macro is a parameter of the development; the
statement holds for each value of it up to 46339. -/
theorem N_eq_square_of_valid_degree (env : Env) (henv : env.STARRY_MAX_LMAX ≤ 46339)
    (lmax ncoly ncolu nflx : Int) (hl : 0 ≤ lmax ∧ lmax ≤ env.STARRY_MAX_LMAX) :
    Map.initN lmax = (lmax + 1) ^ 2 ∧
    ∀ m : Map, (Map.Map_all env lmax ncoly ncolu nflx).result = .ok m →
      m.N = (lmax + 1) ^ 2 := by
  have hN : Map.initN lmax = (lmax + 1) ^ 2 := by
    rw [initN_of_small lmax hl.1 (by omega)]
    ring
  refine ⟨hN, fun m hm => ?_⟩
  rcases Map_all_result_cases env lmax ncoly ncolu nflx with ⟨_, hr⟩ | ⟨_, _, hr⟩ | ⟨_, _, hr⟩
  · rw [hr] at hm
    cases hm
  · rw [hr] at hm
    cases hm
  · rw [hr] at hm
    cases hm
    exact hN

/-- Witness for C3: with maximum degree 50, `Map(50, 2, 2, 2)` returns a map
whose `N` is 2601. -/
theorem N_eq_square_of_valid_degree_witness :
    ∃ m : Map, (Map.Map_all sampleEnv 50 2 2 2).result = .ok m ∧ m.N = 2601 := by
  have hr := Map_all_of_valid sampleEnv 50 2 2 2 (by decide) (by decide)
  refine ⟨_, by rw [hr], ?_⟩
  have h := (N_eq_square_of_valid_degree sampleEnv (by decide) 50 2 2 2
    ⟨by decide, by decide⟩).2 _ (by rw [hr])
  rw [h]
  norm_num

/-- C4: after every successful construction the Taylor-coefficient vector has
length `ncoly` and its entry at index 0 is `1.0`; this holds for the
four-argument constructor and hence for the two public ones. -/
theorem taylor_after_construction (env : Env) :
    (∀ (lmax ncoly ncolu nflx : Int) (m : Map),
      (Map.Map_all env lmax ncoly ncolu nflx).result = .ok m →
        (m.taylor.length : Int) = ncoly ∧ m.taylor[0]? = some 1) ∧
    (∀ (S : Kind) (hS : IsDefault S) (lmax : Int) (m : Map),
      (Map.Map_single env S hS lmax).result = .ok m →
        (m.taylor.length : Int) = m.ncoly ∧ m.taylor[0]? = some 1) ∧
    (∀ (S : Kind) (hS : IsSpectralOrTemporal S) (lmax ncol : Int) (m : Map),
      (Map.Map_multi env S hS lmax ncol).result = .ok m →
        (m.taylor.length : Int) = m.ncoly ∧ m.taylor[0]? = some 1) := by
  have key : ∀ (lmax ncoly ncolu nflx : Int) (m : Map),
      (Map.Map_all env lmax ncoly ncolu nflx).result = .ok m →
        (m.taylor.length : Int) = ncoly ∧ m.taylor[0]? = some 1 ∧ m.ncoly = ncoly := by
    intro lmax ncoly ncolu nflx m hm
    rcases Map_all_result_cases env lmax ncoly ncolu nflx with ⟨_, hr⟩ | ⟨_, _, hr⟩ | ⟨_, hc, hr⟩
    · rw [hr] at hm
      cases hm
    · rw [hr] at hm
      cases hm
    · rw [hr] at hm
      cases hm
      have hlen : ((Vector.alloc env ncoly).set 0 1).length = ncoly.toNat := by
        rw [List.length_set, Vector.length_alloc]
      have hpos : 0 < (Vector.alloc env ncoly).length := by
        rw [Vector.length_alloc]; omega
      refine ⟨?_, ?_, rfl⟩
      · show ((((Vector.alloc env ncoly).set 0 1).length : Nat) : Int) = ncoly
        rw [hlen]
        omega
      · show ((Vector.alloc env ncoly).set 0 1)[0]? = some 1
        rw [List.getElem?_set_self hpos]
  refine ⟨fun lmax ncoly ncolu nflx m hm => ?_, fun S hS lmax m hm => ?_,
    fun S hS lmax ncol m hm => ?_⟩
  · exact ⟨(key _ _ _ _ m hm).1, (key _ _ _ _ m hm).2.1⟩
  · obtain ⟨h1, h2, h3⟩ := key _ _ _ _ m hm
    exact ⟨by rw [h1, h3], h2⟩
  · obtain ⟨h1, h2, h3⟩ := key _ _ _ _ m hm
    exact ⟨by rw [h1, h3], h2⟩

/-- Witness for C4: `Map(2, 3, 1, 1)` returns a map whose Taylor vector has
length 3 and first entry 1. -/
theorem taylor_after_construction_witness :
    ∃ m : Map, (Map.Map_all sampleEnv 2 3 1 1).result = .ok m ∧
      (m.taylor.length : Int) = 3 ∧ m.taylor[0]? = some 1 := by
  have hr := Map_all_of_valid sampleEnv 2 3 1 1 (by decide) (by decide)
  exact ⟨_, by rw [hr], (taylor_after_construction sampleEnv).1 2 3 1 1 _ (by rw [hr])⟩

/-- C5: the public constructors fix the column counts by map kind. For the
default kind `Map(lmax)` is the run of `Map(lmax, 1, 1, 1)`; for the spectral
kind `Map(lmax, ncol)` is the run of `Map(lmax, ncol, ncol, ncol)`; for the
temporal kind `Map(lmax, ncol)` is the run of `Map(lmax, ncol, 1, 1)`: same
steps, same map or same error. -/
theorem public_constructors_delegate (env : Env) (lmax ncol : Int) :
    Map.Map_single env Kind.Default rfl lmax = Map.Map_all env lmax 1 1 1 ∧
    Map.Map_multi env Kind.Spectral (Or.inl rfl) lmax ncol =
      Map.Map_all env lmax ncol ncol ncol ∧
    Map.Map_multi env Kind.Temporal (Or.inr rfl) lmax ncol =
      Map.Map_all env lmax ncol 1 1 := by
  refine ⟨rfl, ?_, ?_⟩
  · simp [Map.Map_multi]
  · simp [Map.Map_multi]

/-- C6: every map returned by one of the three constructors stores the
arguments unchanged in the public fields `lmax`, `ncoly`, `ncolu`, `nflx` and
satisfies the data-model invariant `0 <= lmax <= STARRY_MAX_LMAX`,
`ncoly >= 1`, `ncolu >= 1`, `N = (lmax + 1)^2`. The macro is a parameter of
the development; the statement holds for each value of it up to 46339. -/
theorem constructed_map_invariant (env : Env) (henv : env.STARRY_MAX_LMAX ≤ 46339) :
    (∀ (lmax ncoly ncolu nflx : Int) (m : Map),
      (Map.Map_all env lmax ncoly ncolu nflx).result = .ok m →
        m.lmax = lmax ∧ m.ncoly = ncoly ∧ m.ncolu = ncolu ∧ m.nflx = nflx ∧
          Map.Invariant env m) ∧
    (∀ (S : Kind) (hS : IsDefault S) (lmax : Int) (m : Map),
      (Map.Map_single env S hS lmax).result = .ok m →
        m.lmax = lmax ∧ m.ncoly = 1 ∧ m.ncolu = 1 ∧ m.nflx = 1 ∧ Map.Invariant env m) ∧
    (∀ (S : Kind) (hS : IsSpectralOrTemporal S) (lmax ncol : Int) (m : Map),
      (Map.Map_multi env S hS lmax ncol).result = .ok m →
        m.lmax = lmax ∧ m.ncoly = ncol ∧
          m.ncolu = (if S = Kind.Spectral then ncol else 1) ∧
          m.nflx = (if S = Kind.Spectral then ncol else 1) ∧ Map.Invariant env m) := by
  have key : ∀ (lmax ncoly ncolu nflx : Int) (m : Map),
      (Map.Map_all env lmax ncoly ncolu nflx).result = .ok m →
        m.lmax = lmax ∧ m.ncoly = ncoly ∧ m.ncolu = ncolu ∧ m.nflx = nflx ∧
          Map.Invariant env m := by
    intro lmax ncoly ncolu nflx m hm
    rcases Map_all_result_cases env lmax ncoly ncolu nflx with ⟨_, hr⟩ | ⟨_, _, hr⟩ | ⟨hd, hc, hr⟩
    · rw [hr] at hm
      cases hm
    · rw [hr] at hm
      cases hm
    · rw [hr] at hm
      cases hm
      refine ⟨rfl, rfl, rfl, rfl, hd.1, hd.2, hc.1, hc.2, ?_⟩
      show Map.initN lmax = (lmax + 1) ^ 2
      rw [initN_of_small lmax hd.1 (by omega)]
      ring
  exact ⟨key, fun S hS lmax m hm => key _ _ _ _ m hm,
    fun S hS lmax ncol m hm => key _ _ _ _ m hm⟩

/-- Witness for C6: `Map(2, 3, 4, 5)` returns a map with fields
`lmax = 2`, `ncoly = 3`, `ncolu = 4`, `nflx = 5` that satisfies the
invariant. -/
theorem constructed_map_invariant_witness :
    ∃ m : Map, (Map.Map_all sampleEnv 2 3 4 5).result = .ok m ∧
      m.lmax = 2 ∧ m.ncoly = 3 ∧ m.ncolu = 4 ∧ m.nflx = 5 ∧ Map.Invariant sampleEnv m := by
  have hr := Map_all_of_valid sampleEnv 2 3 4 5 (by decide) (by decide)
  exact ⟨_, by rw [hr],
    (constructed_map_invariant sampleEnv (by decide)).1 2 3 4 5 _ (by rw [hr])⟩

/-- C9: although the four-argument constructor never checks `nflx`, every map
built successfully through a public constructor (`Map(lmax)` for the default
kind, `Map(lmax, ncol)` for the spectral or temporal kind) has `nflx >= 1`
and `nflx = ncolu`. -/
theorem public_nflx_positive (env : Env) :
    (∀ (S : Kind) (hS : IsDefault S) (lmax : Int) (m : Map),
      (Map.Map_single env S hS lmax).result = .ok m → 1 ≤ m.nflx ∧ m.nflx = m.ncolu) ∧
    (∀ (S : Kind) (hS : IsSpectralOrTemporal S) (lmax ncol : Int) (m : Map),
      (Map.Map_multi env S hS lmax ncol).result = .ok m →
        1 ≤ m.nflx ∧ m.nflx = m.ncolu) := by
  have key : ∀ (lmax ncoly ncolu : Int) (m : Map),
      (Map.Map_all env lmax ncoly ncolu ncolu).result = .ok m →
        1 ≤ m.nflx ∧ m.nflx = m.ncolu := by
    intro lmax ncoly ncolu m hm
    rcases Map_all_result_cases env lmax ncoly ncolu ncolu with ⟨_, hr⟩ | ⟨_, _, hr⟩ | ⟨_, hc, hr⟩
    · rw [hr] at hm
      cases hm
    · rw [hr] at hm
      cases hm
    · rw [hr] at hm
      cases hm
      exact ⟨hc.2, rfl⟩
  exact ⟨fun S hS lmax m hm => key _ _ _ m hm, fun S hS lmax ncol m hm => key _ _ _ m hm⟩

/-- Witness for C9: the spectral `Map(2, 3)` returns a map with
`nflx = ncolu = 3`, the temporal `Map(2, 3)` and the default `Map(2)` return
maps with `nflx = ncolu = 1`. -/
theorem public_nflx_positive_witness :
    (∃ m : Map, (Map.Map_multi sampleEnv Kind.Spectral (Or.inl rfl) 2 3).result = .ok m ∧
      (1 ≤ m.nflx ∧ m.nflx = m.ncolu) ∧ m.nflx = 3) ∧
    (∃ m : Map, (Map.Map_multi sampleEnv Kind.Temporal (Or.inr rfl) 2 3).result = .ok m ∧
      (1 ≤ m.nflx ∧ m.nflx = m.ncolu) ∧ m.nflx = 1) ∧
    (∃ m : Map, (Map.Map_single sampleEnv Kind.Default rfl 2).result = .ok m ∧
      (1 ≤ m.nflx ∧ m.nflx = m.ncolu) ∧ m.nflx = 1) := by
  have hs : (Map.Map_multi sampleEnv Kind.Spectral (Or.inl rfl) 2 3) =
      Map.Map_all sampleEnv 2 3 3 3 := by simp [Map.Map_multi]
  have ht : (Map.Map_multi sampleEnv Kind.Temporal (Or.inr rfl) 2 3) =
      Map.Map_all sampleEnv 2 3 1 1 := by simp [Map.Map_multi]
  have hd : (Map.Map_single sampleEnv Kind.Default rfl 2) =
      Map.Map_all sampleEnv 2 1 1 1 := rfl
  have rs := Map_all_of_valid sampleEnv 2 3 3 3 (by decide) (by decide)
  have rt := Map_all_of_valid sampleEnv 2 3 1 1 (by decide) (by decide)
  have rd := Map_all_of_valid sampleEnv 2 1 1 1 (by decide) (by decide)
  refine ⟨⟨_, by rw [hs, rs], ?_, rfl⟩, ⟨_, by rw [ht, rt], ?_, rfl⟩, ⟨_, by rw [hd, rd], ?_, rfl⟩⟩
  · exact (public_nflx_positive sampleEnv).2 Kind.Spectral (Or.inl rfl) 2 3 _ (by rw [hs, rs])
  · exact (public_nflx_positive sampleEnv).2 Kind.Temporal (Or.inr rfl) 2 3 _ (by rw [ht, rt])
  · exact (public_nflx_positive sampleEnv).1 Kind.Default rfl 2 _ (by rw [hd, rd])

/-- C10: the write `taylor(0) = 1.0` is in bounds on every execution that
reaches it. Whenever the write step occurs in a run of the four-argument
constructor, it is at index 0 of a vector whose length is `ncoly`, with
`ncoly >= 1`; no run ends in an out-of-bounds write; and the write is reached
whenever both checks pass. -/
theorem taylor_write_in_bounds (env : Env) (lmax ncoly ncolu nflx : Int) :
    (∀ i len : Nat,
      Step.write_taylor i len ∈ (Map.Map_all env lmax ncoly ncolu nflx).trace →
        i = 0 ∧ (len : Int) = ncoly ∧ 1 ≤ ncoly ∧ i < len) ∧
    (∀ i len : Nat,
      (Map.Map_all env lmax ncoly ncolu nflx).result ≠ .error (.outOfBounds i len)) ∧
    ((0 ≤ lmax ∧ lmax ≤ env.STARRY_MAX_LMAX ∧ 1 ≤ ncoly ∧ 1 ≤ ncolu) →
      Step.write_taylor 0 ncoly.toNat ∈ (Map.Map_all env lmax ncoly ncolu nflx).trace) := by
  by_cases hd : lmax < 0 ∨ lmax > env.STARRY_MAX_LMAX
  · rw [Map_all_of_bad_degree env lmax ncoly ncolu nflx hd]
    refine ⟨fun i len h => ?_, fun i len h => ?_, fun h => by omega⟩
    · simp [Map.initTrace] at h
    · cases h
  · by_cases hc : ncoly < 1 ∨ ncolu < 1
    · rw [Map_all_of_bad_columns env lmax ncoly ncolu nflx hd hc]
      refine ⟨fun i len h => ?_, fun i len h => ?_, fun h => by omega⟩
      · simp [Map.initTrace] at h
      · cases h
    · rw [Map_all_of_valid env lmax ncoly ncolu nflx hd hc]
      refine ⟨fun i len h => ?_, fun i len h => ?_, fun _ => ?_⟩
      · simp [Map.initTrace] at h
        obtain ⟨hi, hlen⟩ := h
        subst hi
        subst hlen
        refine ⟨rfl, ?_, ?_, ?_⟩ <;> omega
      · cases h
      · simp [Map.initTrace]

/-- Witness for C10: in the run of `Map(2, 3, 1, 1)` the write step occurs,
at index 0 of a vector of length 3. -/
theorem taylor_write_in_bounds_witness :
    Step.write_taylor 0 3 ∈ (Map.Map_all sampleEnv 2 3 1 1).trace ∧
      ((0 : Nat) = 0 ∧ ((3 : Nat) : Int) = 3 ∧ (1 : Int) ≤ 3 ∧ (0 : Nat) < 3) := by
  have hmem : Step.write_taylor 0 3 ∈ (Map.Map_all sampleEnv 2 3 1 1).trace :=
    (taylor_write_in_bounds sampleEnv 2 3 1 1).2.2 ⟨by decide, by decide, by decide, by decide⟩
  exact ⟨hmem, (taylor_write_in_bounds sampleEnv 2 3 1 1).1 0 3 hmem⟩

/-- C7 (as stated, refuted): in the run of `Map(-1, 1, 1, 1)` the basis
transform is constructed with the degree `-1`, outside
`[0, STARRY_MAX_LMAX]`: the run is the member initialiser list (which builds
the cache, `B`, `W`, `G` and `L` from `lmax`), then the degree check, then the
throw. -/
theorem component_degree_counterexample :
    (Map.Map_all sampleEnv (-1) 1 1 1).trace =
      [.init_lmax (-1), .init_N 0, .init_ncoly 1, .init_ncolu 1, .init_nflx 1,
        .construct_cache (-1) 1 1 1, .construct_y, .construct_u, .construct_axis,
        .construct_B (-1), .construct_W (-1) 1 1, .construct_G (-1), .construct_L (-1),
        .construct_taylor 1, .check_degree (-1),
        .raise ⟨"Spherical harmonic degree out of range."⟩] ∧
    ¬ (∀ s ∈ (Map.Map_all sampleEnv (-1) 1 1 1).trace, ∀ l : Int,
        s.componentDegree = some l → 0 ≤ l ∧ l ≤ sampleEnv.STARRY_MAX_LMAX) := by
  have hr := Map_all_of_bad_degree sampleEnv (-1) 1 1 1 (Or.inl (by decide))
  refine ⟨by rw [hr]; rfl, fun h => ?_⟩
  have hmem : Step.construct_B (-1) ∈ (Map.Map_all sampleEnv (-1) 1 1 1).trace := by
    rw [hr]
    simp [Map.initTrace]
  have := (h _ hmem (-1) rfl).1
  omega

/-- C7 (amended): an out-of-range degree is rejected by the constructor of the
map, after its sub-components have been built. In every run the member
initialiser list constructs the cache, `B`, `W`, `G` and `L` with `lmax` as
given, the degree check is the next step, and no later step constructs a
sub-component. When `lmax` is outside `[0, STARRY_MAX_LMAX]` the check throws
the degree error and nothing else runs. Every run that returns a map has
constructed its sub-components with a degree in `[0, STARRY_MAX_LMAX]`. -/
theorem degree_checked_after_components (env : Env) (lmax ncoly ncolu nflx : Int) :
    (∃ rest : List Step,
      (Map.Map_all env lmax ncoly ncolu nflx).trace =
        Map.initTrace lmax ncoly ncolu nflx ++ Step.check_degree lmax :: rest ∧
      (∀ s ∈ rest, s.componentDegree = none) ∧
      Step.construct_cache lmax ncoly ncolu nflx ∈ Map.initTrace lmax ncoly ncolu nflx ∧
      Step.construct_B lmax ∈ Map.initTrace lmax ncoly ncolu nflx ∧
      Step.construct_W lmax ncoly nflx ∈ Map.initTrace lmax ncoly ncolu nflx ∧
      Step.construct_G lmax ∈ Map.initTrace lmax ncoly ncolu nflx ∧
      Step.construct_L lmax ∈ Map.initTrace lmax ncoly ncolu nflx) ∧
    ((lmax < 0 ∨ lmax > env.STARRY_MAX_LMAX) →
      (Map.Map_all env lmax ncoly ncolu nflx).trace =
        Map.initTrace lmax ncoly ncolu nflx ++
          [Step.check_degree lmax, Step.raise ⟨degreeMessage⟩] ∧
      (Map.Map_all env lmax ncoly ncolu nflx).result = .error (.thrown ⟨degreeMessage⟩)) ∧
    (∀ m : Map, (Map.Map_all env lmax ncoly ncolu nflx).result = .ok m →
      ∀ s ∈ (Map.Map_all env lmax ncoly ncolu nflx).trace, ∀ l : Int,
        s.componentDegree = some l → 0 ≤ l ∧ l ≤ env.STARRY_MAX_LMAX) := by
  have hinit : ∀ s ∈ Map.initTrace lmax ncoly ncolu nflx, ∀ l : Int,
      s.componentDegree = some l → l = lmax := by
    intro s hs l hl
    simp only [Map.initTrace, List.mem_cons, List.mem_singleton, List.not_mem_nil,
      or_false] at hs
    rcases hs with h | h | h | h | h | h | h | h | h | h | h | h | h | h <;>
      subst h <;> simp [Step.componentDegree] at hl <;> omega
  have hmems : Step.construct_cache lmax ncoly ncolu nflx ∈ Map.initTrace lmax ncoly ncolu nflx ∧
      Step.construct_B lmax ∈ Map.initTrace lmax ncoly ncolu nflx ∧
      Step.construct_W lmax ncoly nflx ∈ Map.initTrace lmax ncoly ncolu nflx ∧
      Step.construct_G lmax ∈ Map.initTrace lmax ncoly ncolu nflx ∧
      Step.construct_L lmax ∈ Map.initTrace lmax ncoly ncolu nflx := by
    simp [Map.initTrace]
  by_cases hd : lmax < 0 ∨ lmax > env.STARRY_MAX_LMAX
  · rw [Map_all_of_bad_degree env lmax ncoly ncolu nflx hd]
    refine ⟨⟨_, rfl, ?_, hmems⟩, fun _ => ⟨rfl, rfl⟩, fun m hm => ?_⟩
    · intro s hs
      simp only [List.mem_singleton] at hs
      subst hs
      rfl
    · cases hm
  · by_cases hc : ncoly < 1 ∨ ncolu < 1
    · rw [Map_all_of_bad_columns env lmax ncoly ncolu nflx hd hc]
      refine ⟨⟨_, rfl, ?_, hmems⟩, fun h => absurd h hd, fun m hm => ?_⟩
      · intro s hs
        simp only [List.mem_cons, List.mem_singleton, List.not_mem_nil, or_false] at hs
        rcases hs with h | h <;> subst h <;> rfl
      · cases hm
    · rw [Map_all_of_valid env lmax ncoly ncolu nflx hd hc]
      have hrest : ∀ s ∈ [Step.check_columns ncoly ncolu, Step.set_radian,
          Step.write_taylor 0 ncoly.toNat, Step.call_reset], s.componentDegree = none := by
        intro s hs
        simp only [List.mem_cons, List.mem_singleton, List.not_mem_nil, or_false] at hs
        rcases hs with h | h | h | h <;> subst h <;> rfl
      refine ⟨⟨_, rfl, hrest, hmems⟩, fun h => absurd h hd, fun m _ s hs l hl => ?_⟩
      simp only [List.mem_append, List.mem_cons] at hs
      rcases hs with hs | hs | hs
      · have := hinit s hs l hl
        omega
      · subst hs
        simp [Step.componentDegree] at hl
      · have := hrest s (by simpa using hs)
        rw [this] at hl
        cases hl

/-- Witness for C7 (amended): `Map(51, 1, 1, 1)` with maximum degree 50 runs
the initialiser list, the degree check and the throw; `Map(2, 1, 1, 1)`
returns a map and its basis transform was constructed with degree 2, in
range. -/
theorem degree_checked_after_components_witness :
    ((Map.Map_all sampleEnv 51 1 1 1).trace =
        Map.initTrace 51 1 1 1 ++ [Step.check_degree 51, Step.raise ⟨degreeMessage⟩] ∧
      (Map.Map_all sampleEnv 51 1 1 1).result = .error (.thrown ⟨degreeMessage⟩)) ∧
    ((0 : Int) ≤ 2 ∧ (2 : Int) ≤ sampleEnv.STARRY_MAX_LMAX) := by
  have hr := Map_all_of_valid sampleEnv 2 1 1 1 (by decide) (by decide)
  have hmem : Step.construct_B 2 ∈ (Map.Map_all sampleEnv 2 1 1 1).trace := by
    rw [hr]
    simp [Map.initTrace]
  exact ⟨(degree_checked_after_components sampleEnv 51 1 1 1).2.1 (Or.inr (by decide)),
    (degree_checked_after_components sampleEnv 2 1 1 1).2.2 _ (by rw [hr]) _ hmem 2 rfl⟩

end starry
